import Mathlib

/-!
Verification of the MCP tool registry and invocation dispatcher of
`mcp-on-vercel` (src/api/server.ts).

The source registers fifteen tools on an MCP server.  Each registration
binds a tool name to a zod input schema and an async handler; the handler
forwards the validated arguments to a backend client (`BaasClient`) and
wraps the outcome (resolved value or rejection) into a uniform response
envelope `\x7b content, isError? \x7d`.

The embedding has three layers:
* per-tool response shaping (`…Respond` functions), translated directly
  from the try/catch bodies of the handlers in src/api/server.ts;
* per-tool request construction (`…Request` functions), translated from
  the argument objects the handlers pass to the backend client;
* the schema-validation dispatcher, which lives outside src/ (in the MCP
  SDK / lib/mcp-api-handler) and is therefore modelled from the spec.
-/

/-- An untyped JSON-like value, the currency of raw argument bags and
backend payloads at the dispatcher boundary. -/
inductive JValue where
  | null
  | bool (b : Bool)
  | num (n : Int)
  | str (s : String)
  | arr (items : List JValue)
  | obj (fields : List (String × JValue))
deriving Repr

/-- One content block of a response envelope. -/
structure ContentBlock where
  type : String
  text : String
deriving Repr, DecidableEq

/-- The uniform response envelope: `content` plus an optional `isError`
flag (`none` models an absent field). -/
structure ToolResult where
  content : List ContentBlock
  isError : Option Bool := none
deriving Repr, DecidableEq

/-- Outcome of the single backend-client call a handler awaits:
the promise either resolves to a value or rejects with an error value. -/
inductive BackendResult where
  | resolved (v : JValue)
  | rejected (e : JValue)
deriving Repr

/-- JavaScript truthiness of a value, as applied by the source's
`success ? … : …` ternaries. -/
def jsTruthy : JValue → Bool
  | .null => false
  | .bool b => b
  | .num n => n != 0
  | .str s => s != ""
  | .arr _ => true
  | .obj _ => true

/-- Modelled from the spec: string coercion performed by JS template
interpolation (`${x}`), a platform builtin outside the repository.  Only
the string case is exercised by the claims. -/
def jsTemplate : JValue → String
  | .null => "null"
  | .bool b => cond b "true" "false"
  | .num n => toString n
  | .str s => s
  | .arr _ => ""
  | .obj _ => "[object Object]"

mutual

/-- Modelled from the spec: rendering of structured backend data as a
formatted text serialization (`JSON.stringify(data, null, 2)` in the
source, a platform builtin outside the repository).  The claims depend
only on the result being a string, not on the exact formatting. -/
def jsonStringify : JValue → String
  | .null => "null"
  | .bool b => cond b "true" "false"
  | .num n => toString n
  | .str s => "\x22" ++ s ++ "\x22"
  | .arr items => "[" ++ jsonStringifyItems items ++ "]"
  | .obj fields => "\x7b" ++ jsonStringifyFields fields ++ "\x7d"

/-- Serialize the elements of a JSON array, comma separated. -/
def jsonStringifyItems : List JValue → String
  | [] => ""
  | [v] => jsonStringify v
  | v :: vs => jsonStringify v ++ "," ++ jsonStringifyItems vs

/-- Serialize the fields of a JSON object, comma separated. -/
def jsonStringifyFields : List (String × JValue) → String
  | [] => ""
  | [f] => "\x22" ++ f.1 ++ "\x22:" ++ jsonStringify f.2
  | f :: fs => "\x22" ++ f.1 ++ "\x22:" ++ jsonStringify f.2 ++ ","
      ++ jsonStringifyFields fs

end

/-- Look up a field in a raw argument bag. -/
def lookupArg (args : List (String × JValue)) (key : String) : Option JValue :=
  match args with
  | [] => none
  | (k, v) :: rest => if k == key then some v else lookupArg rest key

/-- A success envelope holding one text block, as built by the success
branches of the handlers. -/
def textResult (s : String) : ToolResult :=
  { content := [{ type := "text", text := s }] }

/-- An error envelope holding one text block with `isError: true`, as
built by the catch branches of the handlers. -/
def errorResult (s : String) : ToolResult :=
  { content := [{ type := "text", text := s }], isError := some true }

/-! ### Per-tool response shaping

Each `…Respond` function is the try/catch body of the corresponding
handler in src/api/server.ts, abstracted over the outcome of its single
awaited backend call.  The raw argument bag is passed through because the
`echo` handler (and only that one) reads it when shaping its response. -/

/-- `joinMeeting` handler body (src/api/server.ts lines 38-66). -/
def joinMeetingRespond (b : BackendResult)
    (_args : List (String × JValue)) : ToolResult :=
  match b with
  | .resolved botId =>
      textResult ("Successfully joined meeting with bot ID: " ++ jsTemplate botId)
  | .rejected _ => errorResult "Failed to join meeting"

/-- `leaveMeeting` handler body (src/api/server.ts lines 75-98). -/
def leaveMeetingRespond (b : BackendResult)
    (_args : List (String × JValue)) : ToolResult :=
  match b with
  | .resolved success =>
      textResult (if jsTruthy success then "Successfully left meeting"
        else "Failed to leave meeting")
  | .rejected _ => errorResult "Failed to leave meeting"

/-- `getMeetingData` handler body (src/api/server.ts lines 107-128). -/
def getMeetingDataRespond (b : BackendResult)
    (_args : List (String × JValue)) : ToolResult :=
  match b with
  | .resolved data => textResult (jsonStringify data)
  | .rejected _ => errorResult "Failed to get meeting data"

/-- `deleteData` handler body (src/api/server.ts lines 137-158); the
resolved backend value is bound but never used. -/
def deleteDataRespond (b : BackendResult)
    (_args : List (String × JValue)) : ToolResult :=
  match b with
  | .resolved _result => textResult "Successfully deleted meeting data"
  | .rejected _ => errorResult "Failed to delete meeting data"

/-- `createCalendar` handler body (src/api/server.ts lines 185-216). -/
def createCalendarRespond (b : BackendResult)
    (_args : List (String × JValue)) : ToolResult :=
  match b with
  | .resolved calendar =>
      textResult ("Successfully created calendar: " ++ jsonStringify calendar)
  | .rejected _ => errorResult "Failed to create calendar"

/-- `listCalendars` handler body (src/api/server.ts lines 225-246). -/
def listCalendarsRespond (b : BackendResult)
    (_args : List (String × JValue)) : ToolResult :=
  match b with
  | .resolved calendars => textResult (jsonStringify calendars)
  | .rejected _ => errorResult "Failed to list calendars"

/-- `getCalendar` handler body (src/api/server.ts lines 255-276). -/
def getCalendarRespond (b : BackendResult)
    (_args : List (String × JValue)) : ToolResult :=
  match b with
  | .resolved calendar => textResult (jsonStringify calendar)
  | .rejected _ => errorResult "Failed to get calendar"

/-- `deleteCalendar` handler body (src/api/server.ts lines 285-308). -/
def deleteCalendarRespond (b : BackendResult)
    (_args : List (String × JValue)) : ToolResult :=
  match b with
  | .resolved success =>
      textResult (if jsTruthy success then "Successfully deleted calendar"
        else "Failed to delete calendar")
  | .rejected _ => errorResult "Failed to delete calendar"

/-- `resyncAllCalendars` handler body (src/api/server.ts lines 317-338);
the resolved backend value is bound but never used. -/
def resyncAllCalendarsRespond (b : BackendResult)
    (_args : List (String × JValue)) : ToolResult :=
  match b with
  | .resolved _result => textResult "Successfully resynced all calendars"
  | .rejected _ => errorResult "Failed to resync calendars"

/-- `botsWithMetadata` handler body (src/api/server.ts lines 377-408). -/
def botsWithMetadataRespond (b : BackendResult)
    (_args : List (String × JValue)) : ToolResult :=
  match b with
  | .resolved bots => textResult (jsonStringify bots)
  | .rejected _ => errorResult "Failed to get bots with metadata"

/-- `listEvents` handler body (src/api/server.ts lines 417-438). -/
def listEventsRespond (b : BackendResult)
    (_args : List (String × JValue)) : ToolResult :=
  match b with
  | .resolved events => textResult (jsonStringify events)
  | .rejected _ => errorResult "Failed to list events"

/-- `scheduleRecordEvent` handler body (src/api/server.ts lines 459-483);
the resolved backend value is bound but never used. -/
def scheduleRecordEventRespond (b : BackendResult)
    (_args : List (String × JValue)) : ToolResult :=
  match b with
  | .resolved _result => textResult "Successfully scheduled event recording"
  | .rejected _ => errorResult "Failed to schedule event recording"

/-- `unscheduleRecordEvent` handler body (src/api/server.ts lines
492-513); the resolved backend value is bound but never used. -/
def unscheduleRecordEventRespond (b : BackendResult)
    (_args : List (String × JValue)) : ToolResult :=
  match b with
  | .resolved _result => textResult "Successfully unscheduled event recording"
  | .rejected _ => errorResult "Failed to unschedule event recording"

/-- `updateCalendar` handler body (src/api/server.ts lines 543-574). -/
def updateCalendarRespond (b : BackendResult)
    (_args : List (String × JValue)) : ToolResult :=
  match b with
  | .resolved calendar =>
      textResult ("Successfully updated calendar: " ++ jsonStringify calendar)
  | .rejected _ => errorResult "Failed to update calendar"

/-- `echo` handler body (src/api/server.ts lines 579-586): a pure
handler with no backend call; it reads `message` from its arguments. -/
def echoRespond (_b : BackendResult)
    (args : List (String × JValue)) : ToolResult :=
  textResult ("Tool echo: " ++
    jsTemplate ((lookupArg args "message").getD JValue.null))

/-! ### Input schemas

One entry per zod field of each tool's input schema in src/api/server.ts.
`z.record(z.any())` is the open key-value map. -/

/-- The primitive constraint a schema places on one field. -/
inductive FieldType where
  | string
  | number
  | boolean
  | enum (allowed : List String)
  | map
deriving Repr, DecidableEq

/-- One named field of a tool's input schema, with its constraint and
whether it is required (no `.optional()` in the source). -/
structure SchemaField where
  name : String
  type : FieldType
  required : Bool
deriving Repr, DecidableEq

/-- `joinMeeting` input schema (src/api/server.ts lines 15-22). -/
def joinMeetingSchema : List SchemaField :=
  [ { name := "meetingUrl", type := .string, required := true },
    { name := "botName", type := .string, required := true },
    { name := "webhookUrl", type := .string, required := false },
    { name := "recordingMode", type := .string, required := false },
    { name := "speechToText", type := .boolean, required := false },
    { name := "reserved", type := .boolean, required := true } ]

/-- `leaveMeeting` input schema (src/api/server.ts line 73). -/
def leaveMeetingSchema : List SchemaField :=
  [ { name := "botId", type := .string, required := true } ]

/-- `getMeetingData` input schema (src/api/server.ts line 105). -/
def getMeetingDataSchema : List SchemaField :=
  [ { name := "botId", type := .string, required := true } ]

/-- `deleteData` input schema (src/api/server.ts line 135). -/
def deleteDataSchema : List SchemaField :=
  [ { name := "botId", type := .string, required := true } ]

/-- `createCalendar` input schema (src/api/server.ts lines 165-171). -/
def createCalendarSchema : List SchemaField :=
  [ { name := "oauthClientId", type := .string, required := true },
    { name := "oauthClientSecret", type := .string, required := true },
    { name := "oauthRefreshToken", type := .string, required := true },
    { name := "platform", type := .enum ["Google", "Microsoft"], required := true },
    { name := "rawCalendarId", type := .string, required := true } ]

/-- `listCalendars` input schema (src/api/server.ts line 223): empty. -/
def listCalendarsSchema : List SchemaField := []

/-- `getCalendar` input schema (src/api/server.ts line 253). -/
def getCalendarSchema : List SchemaField :=
  [ { name := "uuid", type := .string, required := true } ]

/-- `deleteCalendar` input schema (src/api/server.ts line 283). -/
def deleteCalendarSchema : List SchemaField :=
  [ { name := "uuid", type := .string, required := true } ]

/-- `resyncAllCalendars` input schema (src/api/server.ts line 315): empty. -/
def resyncAllCalendarsSchema : List SchemaField := []

/-- `botsWithMetadata` input schema (src/api/server.ts lines 345-355). -/
def botsWithMetadataSchema : List SchemaField :=
  [ { name := "botName", type := .string, required := false },
    { name := "createdAfter", type := .string, required := false },
    { name := "createdBefore", type := .string, required := false },
    { name := "cursor", type := .string, required := false },
    { name := "filterByExtra", type := .string, required := false },
    { name := "limit", type := .number, required := false },
    { name := "meetingUrl", type := .string, required := false },
    { name := "sortByExtra", type := .string, required := false },
    { name := "speakerName", type := .string, required := false } ]

/-- `listEvents` input schema (src/api/server.ts line 415). -/
def listEventsSchema : List SchemaField :=
  [ { name := "calendarUuid", type := .string, required := true } ]

/-- `scheduleRecordEvent` input schema (src/api/server.ts lines 445-449). -/
def scheduleRecordEventSchema : List SchemaField :=
  [ { name := "eventUuid", type := .string, required := true },
    { name := "botName", type := .string, required := true },
    { name := "extra", type := .map, required := false } ]

/-- `unscheduleRecordEvent` input schema (src/api/server.ts line 490). -/
def unscheduleRecordEventSchema : List SchemaField :=
  [ { name := "eventUuid", type := .string, required := true } ]

/-- `updateCalendar` input schema (src/api/server.ts lines 520-527). -/
def updateCalendarSchema : List SchemaField :=
  [ { name := "uuid", type := .string, required := true },
    { name := "oauthClientId", type := .string, required := false },
    { name := "oauthClientSecret", type := .string, required := false },
    { name := "oauthRefreshToken", type := .string, required := false },
    { name := "platform", type := .enum ["Google", "Microsoft"], required := false },
    { name := "rawCalendarId", type := .string, required := false } ]

/-- `echo` input schema (src/api/server.ts line 579). -/
def echoSchema : List SchemaField :=
  [ { name := "message", type := .string, required := true } ]

/-! ### Registry and dispatcher -/

/-- One registry entry: the name and schema come from the `server.tool`
call in src/api/server.ts; `respond` is that tool's handler body;
`callsBackend` records whether the handler awaits a backend-client call
(every tool except `echo` does). -/
structure RegisteredTool where
  name : String
  schema : List SchemaField
  callsBackend : Bool
  respond : BackendResult → List (String × JValue) → ToolResult

/-- `joinMeeting` registry entry (src/api/server.ts lines 12-68). -/
def joinMeetingTool : RegisteredTool :=
  { name := "joinMeeting", schema := joinMeetingSchema,
    callsBackend := true, respond := joinMeetingRespond }

/-- `leaveMeeting` registry entry (src/api/server.ts lines 70-100). -/
def leaveMeetingTool : RegisteredTool :=
  { name := "leaveMeeting", schema := leaveMeetingSchema,
    callsBackend := true, respond := leaveMeetingRespond }

/-- `getMeetingData` registry entry (src/api/server.ts lines 102-130). -/
def getMeetingDataTool : RegisteredTool :=
  { name := "getMeetingData", schema := getMeetingDataSchema,
    callsBackend := true, respond := getMeetingDataRespond }

/-- `deleteData` registry entry (src/api/server.ts lines 132-160). -/
def deleteDataTool : RegisteredTool :=
  { name := "deleteData", schema := deleteDataSchema,
    callsBackend := true, respond := deleteDataRespond }

/-- `createCalendar` registry entry (src/api/server.ts lines 162-218). -/
def createCalendarTool : RegisteredTool :=
  { name := "createCalendar", schema := createCalendarSchema,
    callsBackend := true, respond := createCalendarRespond }

/-- `listCalendars` registry entry (src/api/server.ts lines 220-248). -/
def listCalendarsTool : RegisteredTool :=
  { name := "listCalendars", schema := listCalendarsSchema,
    callsBackend := true, respond := listCalendarsRespond }

/-- `getCalendar` registry entry (src/api/server.ts lines 250-278). -/
def getCalendarTool : RegisteredTool :=
  { name := "getCalendar", schema := getCalendarSchema,
    callsBackend := true, respond := getCalendarRespond }

/-- `deleteCalendar` registry entry (src/api/server.ts lines 280-310). -/
def deleteCalendarTool : RegisteredTool :=
  { name := "deleteCalendar", schema := deleteCalendarSchema,
    callsBackend := true, respond := deleteCalendarRespond }

/-- `resyncAllCalendars` registry entry (src/api/server.ts lines 312-340). -/
def resyncAllCalendarsTool : RegisteredTool :=
  { name := "resyncAllCalendars", schema := resyncAllCalendarsSchema,
    callsBackend := true, respond := resyncAllCalendarsRespond }

/-- `botsWithMetadata` registry entry (src/api/server.ts lines 342-410). -/
def botsWithMetadataTool : RegisteredTool :=
  { name := "botsWithMetadata", schema := botsWithMetadataSchema,
    callsBackend := true, respond := botsWithMetadataRespond }

/-- `listEvents` registry entry (src/api/server.ts lines 412-440). -/
def listEventsTool : RegisteredTool :=
  { name := "listEvents", schema := listEventsSchema,
    callsBackend := true, respond := listEventsRespond }

/-- `scheduleRecordEvent` registry entry (src/api/server.ts lines 442-485). -/
def scheduleRecordEventTool : RegisteredTool :=
  { name := "scheduleRecordEvent", schema := scheduleRecordEventSchema,
    callsBackend := true, respond := scheduleRecordEventRespond }

/-- `unscheduleRecordEvent` registry entry (src/api/server.ts lines 487-515). -/
def unscheduleRecordEventTool : RegisteredTool :=
  { name := "unscheduleRecordEvent", schema := unscheduleRecordEventSchema,
    callsBackend := true, respond := unscheduleRecordEventRespond }

/-- `updateCalendar` registry entry (src/api/server.ts lines 517-576). -/
def updateCalendarTool : RegisteredTool :=
  { name := "updateCalendar", schema := updateCalendarSchema,
    callsBackend := true, respond := updateCalendarRespond }

/-- `echo` registry entry (src/api/server.ts lines 578-586): the only
handler with no backend call. -/
def echoTool : RegisteredTool :=
  { name := "echo", schema := echoSchema,
    callsBackend := false, respond := echoRespond }

/-- The complete tool registry, in source registration order
(src/api/server.ts lines 12-586). -/
def registry : List RegisteredTool :=
  [ joinMeetingTool, leaveMeetingTool, getMeetingDataTool, deleteDataTool,
    createCalendarTool, listCalendarsTool, getCalendarTool,
    deleteCalendarTool, resyncAllCalendarsTool, botsWithMetadataTool,
    listEventsTool, scheduleRecordEventTool, unscheduleRecordEventTool,
    updateCalendarTool, echoTool ]

/-- The fixed failure message each handler's catch branch renders,
indexed by tool name (src/api/server.ts catch branches). -/
def failureText (toolName : String) : String :=
  if toolName == "joinMeeting" then "Failed to join meeting"
  else if toolName == "leaveMeeting" then "Failed to leave meeting"
  else if toolName == "getMeetingData" then "Failed to get meeting data"
  else if toolName == "deleteData" then "Failed to delete meeting data"
  else if toolName == "createCalendar" then "Failed to create calendar"
  else if toolName == "listCalendars" then "Failed to list calendars"
  else if toolName == "getCalendar" then "Failed to get calendar"
  else if toolName == "deleteCalendar" then "Failed to delete calendar"
  else if toolName == "resyncAllCalendars" then "Failed to resync calendars"
  else if toolName == "botsWithMetadata" then "Failed to get bots with metadata"
  else if toolName == "listEvents" then "Failed to list events"
  else if toolName == "scheduleRecordEvent" then "Failed to schedule event recording"
  else if toolName == "unscheduleRecordEvent" then "Failed to unschedule event recording"
  else if toolName == "updateCalendar" then "Failed to update calendar"
  else ""

/-- Modelled from the spec: whether a raw value satisfies a primitive
field constraint (the validation step of the dispatcher, which lives in
the MCP SDK / lib/mcp-api-handler outside src/).  An enum value outside
the declared set is a validation failure. -/
def checksType : FieldType → JValue → Bool
  | .string, .str _ => true
  | .number, .num _ => true
  | .boolean, .bool _ => true
  | .enum allowed, .str s => allowed.contains s
  | .map, .obj _ => true
  | _, _ => false

/-- Modelled from the spec: one field of the schema is satisfied by the
raw argument bag — present and of the right shape, or absent and
optional. -/
def fieldOk (args : List (String × JValue)) (f : SchemaField) : Bool :=
  match lookupArg args f.name with
  | some v => checksType f.type v
  | none => !f.required

/-- Modelled from the spec: the dispatcher's validation step accepts a
raw argument bag iff every schema field is satisfied. -/
def validateArgs (schema : List SchemaField) (args : List (String × JValue)) : Bool :=
  schema.all (fieldOk args)

/-- Find a tool by name in the registry (the dispatcher's lookup step). -/
def findTool : List RegisteredTool → String → Option RegisteredTool
  | [], _ => none
  | t :: ts, n => if t.name == n then some t else findTool ts n

/-- Outcome of one dispatched invocation: the envelope sent back, and
whether the tool's handler was actually invoked (when it is not, no
backend call is made either). -/
structure DispatchOutcome where
  result : ToolResult
  handlerInvoked : Bool
deriving Repr, DecidableEq

/-- Modelled from the spec: the invocation dispatcher (MCP SDK /
lib/mcp-api-handler, outside src/).  Unknown tool and validation failure
produce error envelopes without invoking the handler; otherwise the
handler runs against the outcome of its backend call. -/
def dispatch (toolName : String) (args : List (String × JValue))
    (b : BackendResult) : DispatchOutcome :=
  match findTool registry toolName with
  | none =>
      { result := errorResult ("Unknown tool: " ++ toolName),
        handlerInvoked := false }
  | some t =>
      if validateArgs t.schema args then
        { result := t.respond b args, handlerInvoked := true }
      else
        { result := errorResult ("Invalid arguments for tool " ++ toolName),
          handlerInvoked := false }

/-! ### Per-tool request construction

Typed views of each handler's validated arguments and of the object the
handler passes to the backend client, translated from the handler bodies
in src/api/server.ts.  After zod validation the `platform` field of the
calendar tools is one of the two enum literals, modelled by `Platform`. -/

/-- The validated `z.enum(["Google", "Microsoft"])` value. -/
inductive Platform where
  | Google
  | Microsoft
deriving Repr, DecidableEq

/-- Validated arguments of `joinMeeting` (src/api/server.ts lines 30-37). -/
structure JoinMeetingArgs where
  meetingUrl : String
  botName : String
  webhookUrl : Option String := none
  recordingMode : Option String := none
  speechToText : Option Bool := none
  reserved : Bool
deriving Repr, DecidableEq

/-- The `speechToText` object forwarded to the backend when requested
(src/api/server.ts line 44). -/
structure SpeechToTextConfig where
  provider : String
deriving Repr, DecidableEq

/-- The request object `joinMeeting` passes to
`baasClient.joinMeeting` (src/api/server.ts lines 39-46). -/
structure JoinMeetingRequest where
  meetingUrl : String
  botName : String
  webhookUrl : Option String
  recordingMode : Option String
  speechToText : Option SpeechToTextConfig
  reserved : Bool
deriving Repr, DecidableEq

/-- JS truthiness of an optional boolean argument, as applied by the
`speechToText ? … : undefined` ternary. -/
def optBoolTruthy : Option Bool → Bool
  | some b => b
  | none => false

/-- `joinMeeting` request construction (src/api/server.ts lines 39-46):
every field is forwarded verbatim except `speechToText`, which becomes
`\x7b provider: "Default" \x7d` when truthy and `undefined` otherwise. -/
def joinMeetingRequest (a : JoinMeetingArgs) : JoinMeetingRequest :=
  { meetingUrl := a.meetingUrl,
    botName := a.botName,
    webhookUrl := a.webhookUrl,
    recordingMode := a.recordingMode,
    speechToText :=
      if optBoolTruthy a.speechToText then some { provider := "Default" }
      else none,
    reserved := a.reserved }

/-- `leaveMeeting` forwards `botId` unchanged (src/api/server.ts line 76). -/
def leaveMeetingRequest (botId : String) : String := botId

/-- `getMeetingData` forwards `botId` unchanged (src/api/server.ts line 108). -/
def getMeetingDataRequest (botId : String) : String := botId

/-- `deleteData` forwards `botId` unchanged (src/api/server.ts line 138). -/
def deleteDataRequest (botId : String) : String := botId

/-- Validated arguments of `createCalendar`
(src/api/server.ts lines 178-184). -/
structure CreateCalendarArgs where
  oauthClientId : String
  oauthClientSecret : String
  oauthRefreshToken : String
  platform : Platform
  rawCalendarId : String
deriving Repr, DecidableEq

/-- `createCalendar` request construction (src/api/server.ts lines
186-192): every field forwarded verbatim except `platform`, which goes
through the ternary `platform === "Google" ? "Google" : "Microsoft"`. -/
def createCalendarRequest (a : CreateCalendarArgs) : CreateCalendarArgs :=
  { oauthClientId := a.oauthClientId,
    oauthClientSecret := a.oauthClientSecret,
    oauthRefreshToken := a.oauthRefreshToken,
    platform := if a.platform = Platform.Google then Platform.Google
      else Platform.Microsoft,
    rawCalendarId := a.rawCalendarId }

/-- `getCalendar` forwards `uuid` unchanged (src/api/server.ts line 256). -/
def getCalendarRequest (uuid : String) : String := uuid

/-- `deleteCalendar` forwards `uuid` unchanged (src/api/server.ts line 286). -/
def deleteCalendarRequest (uuid : String) : String := uuid

/-- Validated arguments of `botsWithMetadata`
(src/api/server.ts lines 366-376). -/
structure BotsWithMetadataArgs where
  botName : Option String := none
  createdAfter : Option String := none
  createdBefore : Option String := none
  cursor : Option String := none
  filterByExtra : Option String := none
  limit : Option Int := none
  meetingUrl : Option String := none
  sortByExtra : Option String := none
  speakerName : Option String := none
deriving Repr, DecidableEq

/-- `botsWithMetadata` request construction (src/api/server.ts lines
378-388): the object passed to `baasClient.listRecentBots` copies every
argument field verbatim. -/
def botsWithMetadataRequest (a : BotsWithMetadataArgs) : BotsWithMetadataArgs :=
  { botName := a.botName,
    createdAfter := a.createdAfter,
    createdBefore := a.createdBefore,
    cursor := a.cursor,
    filterByExtra := a.filterByExtra,
    limit := a.limit,
    meetingUrl := a.meetingUrl,
    sortByExtra := a.sortByExtra,
    speakerName := a.speakerName }

/-- `listEvents` forwards `calendarUuid` unchanged
(src/api/server.ts line 418). -/
def listEventsRequest (calendarUuid : String) : String := calendarUuid

/-- Validated arguments of `scheduleRecordEvent`
(src/api/server.ts lines 454-458). -/
structure ScheduleRecordEventArgs where
  eventUuid : String
  botName : String
  extra : Option (List (String × JValue)) := none
deriving Repr

/-- The pair `scheduleRecordEvent` passes to
`baasClient.scheduleRecordEvent(eventUuid, \x7b botName, extra \x7d)`
(src/api/server.ts lines 460-463). -/
structure ScheduleRecordEventRequest where
  eventUuid : String
  botName : String
  extra : Option (List (String × JValue))
deriving Repr

/-- `scheduleRecordEvent` request construction (src/api/server.ts lines
460-463): all argument values forwarded verbatim. -/
def scheduleRecordEventRequest (a : ScheduleRecordEventArgs) :
    ScheduleRecordEventRequest :=
  { eventUuid := a.eventUuid, botName := a.botName, extra := a.extra }

/-- `unscheduleRecordEvent` forwards `eventUuid` unchanged
(src/api/server.ts line 493). -/
def unscheduleRecordEventRequest (eventUuid : String) : String := eventUuid

/-- Validated arguments of `updateCalendar`
(src/api/server.ts lines 535-542). -/
structure UpdateCalendarArgs where
  uuid : String
  oauthClientId : Option String := none
  oauthClientSecret : Option String := none
  oauthRefreshToken : Option String := none
  platform : Option Platform := none
  rawCalendarId : Option String := none
deriving Repr, DecidableEq

/-- The pair `updateCalendar` passes to
`baasClient.updateCalendar(uuid, \x7b … \x7d)` (src/api/server.ts lines
544-550).  The forwarded `platform` is always one of the two literals,
never absent. -/
structure UpdateCalendarRequest where
  uuid : String
  oauthClientId : Option String
  oauthClientSecret : Option String
  oauthRefreshToken : Option String
  platform : Platform
  rawCalendarId : Option String
deriving Repr, DecidableEq

/-- `updateCalendar` request construction (src/api/server.ts lines
544-550): every field forwarded verbatim except `platform`, which goes
through `platform === "Google" ? "Google" : "Microsoft"` — an absent
(`undefined`) platform therefore becomes `"Microsoft"`. -/
def updateCalendarRequest (a : UpdateCalendarArgs) : UpdateCalendarRequest :=
  { uuid := a.uuid,
    oauthClientId := a.oauthClientId,
    oauthClientSecret := a.oauthClientSecret,
    oauthRefreshToken := a.oauthRefreshToken,
    platform := if a.platform = some Platform.Google then Platform.Google
      else Platform.Microsoft,
    rawCalendarId := a.rawCalendarId }

/-- Well-formedness of a response envelope: a non-empty `content` array
in which every block is a `"text"` block with a string payload. -/
def isWellFormed (r : ToolResult) : Bool :=
  !r.content.isEmpty && r.content.all (fun c => c.type == "text")

/-- The raw argument bag of the spec's `joinMeeting` scenario. -/
def joinMeetingScenarioArgs : List (String × JValue) :=
  [ ("meetingUrl", JValue.str "https://meet.example/abc"),
    ("botName", JValue.str "Notetaker"),
    ("reserved", JValue.bool false) ]

/-- The raw argument bag of the `createCalendar` enum-violation witness:
all required fields present, but `platform` is `"Yahoo"`. -/
def createCalendarBadPlatformArgs : List (String × JValue) :=
  [ ("oauthClientId", JValue.str "client-id"),
    ("oauthClientSecret", JValue.str "client-secret"),
    ("oauthRefreshToken", JValue.str "refresh-token"),
    ("platform", JValue.str "Yahoo"),
    ("rawCalendarId", JValue.str "raw-id") ]

/-- A `joinMeeting` argument bag that omits the required `meetingUrl`. -/
def joinMeetingMissingUrlArgs : List (String × JValue) :=
  [ ("botName", JValue.str "Notetaker"),
    ("reserved", JValue.bool false) ]

/-! ### Claims -/

/-- Claim C1: for every registered tool that awaits a backend call, a
rejected backend call makes the handler return an envelope with exactly
one text block holding that tool's fixed failure message and
`isError = true`; the envelope does not depend on the backend error
value or on the arguments, so the raw error text never appears in it. -/
theorem claim_C1_backend_rejection_yields_fixed_error_envelope :
    ∀ t ∈ registry, t.callsBackend = true →
    ∀ (e : JValue) (args : List (String × JValue)),
      t.respond (BackendResult.rejected e) args =
        { content := [{ type := "text", text := failureText t.name }],
          isError := some true } := by
  intro t ht hcb e args
  simp only [registry, List.mem_cons, List.not_mem_nil, or_false] at ht
  rcases ht with rfl | rfl | rfl | rfl | rfl | rfl | rfl | rfl | rfl | rfl
    | rfl | rfl | rfl | rfl | rfl <;> first
    | rfl
    | exact absurd hcb (by decide)

/-- Witness for C1: the `joinMeeting` handler on a concrete backend
rejection. -/
theorem claim_C1_witness_join_meeting_rejection :
    joinMeetingTool.respond
      (BackendResult.rejected (JValue.str "socket hang up")) [] =
      { content :=
          [{ type := "text", text := failureText joinMeetingTool.name }],
        isError := some true } := by
  have h := claim_C1_backend_rejection_yields_fixed_error_envelope
    joinMeetingTool (by simp [registry]) rfl
    (JValue.str "socket hang up") []
  exact h

/-- Claim C2: for every registered tool and every outcome of its handler
(resolved backend value of any shape, or backend rejection), the handler
returns a well-formed envelope: a non-empty `content` array in which
every block is a `"text"` block. -/
theorem claim_C2_every_handler_outcome_well_formed :
    ∀ t ∈ registry, ∀ (b : BackendResult) (args : List (String × JValue)),
      isWellFormed (t.respond b args) = true := by
  intro t ht b args
  simp only [registry, List.mem_cons, List.not_mem_nil, or_false] at ht
  rcases ht with rfl | rfl | rfl | rfl | rfl | rfl | rfl | rfl | rfl | rfl
    | rfl | rfl | rfl | rfl | rfl <;> cases b <;> rfl

/-- Witness for C2: the `echo` tool on a concrete invocation. -/
theorem claim_C2_witness_echo_invocation :
    isWellFormed (echoTool.respond (BackendResult.resolved JValue.null)
      [("message", JValue.str "ping")]) = true := by
  have h := claim_C2_every_handler_outcome_well_formed
    echoTool (by simp [registry])
    (BackendResult.resolved JValue.null) [("message", JValue.str "ping")]
  exact h

/-- Counterexample to claim C3: `deleteData` with a backend that
resolves `false` still renders its "Successfully …" sentence, not a
"Failed to …" sentence — the handler never inspects the boolean. -/
theorem claim_C3_counterexample_delete_data_false :
    deleteDataRespond (BackendResult.resolved (JValue.bool false)) [] =
      textResult "Successfully deleted meeting data" ∧
    "Successfully deleted meeting data" ≠ "Failed to delete meeting data" := by
  exact ⟨rfl, by decide⟩

/-- Claim C3 (amended): only `leaveMeeting` and `deleteCalendar` choose
the success-path sentence by the resolved boolean ("Successfully …" when
true, "Failed to …" when false); `deleteData` and `resyncAllCalendars`
ignore the resolved value and always render their fixed "Successfully …"
sentence, even when the backend resolves false. -/
theorem claim_C3_amended_boolean_status_rendering :
    ∀ (b : Bool) (args : List (String × JValue)),
      (leaveMeetingRespond (BackendResult.resolved (JValue.bool b)) args =
        textResult (if b then "Successfully left meeting"
          else "Failed to leave meeting")) ∧
      (deleteCalendarRespond (BackendResult.resolved (JValue.bool b)) args =
        textResult (if b then "Successfully deleted calendar"
          else "Failed to delete calendar")) ∧
      (deleteDataRespond (BackendResult.resolved (JValue.bool b)) args =
        textResult "Successfully deleted meeting data") ∧
      (resyncAllCalendarsRespond (BackendResult.resolved (JValue.bool b)) args =
        textResult "Successfully resynced all calendars") := by
  intro b args
  refine ⟨?_, ?_, rfl, rfl⟩ <;> cases b <;> rfl

/-- Claim C4: `leaveMeeting` reports a backend-resolved `false` as a
normal message — the fixed "Failed to leave meeting" text with no
`isError` flag — whereas a backend rejection returns the same text with
`isError = true`. -/
theorem claim_C4_leave_meeting_false_vs_rejection :
    ∀ (args : List (String × JValue)) (e : JValue),
      (leaveMeetingRespond (BackendResult.resolved (JValue.bool false)) args =
        { content := [{ type := "text", text := "Failed to leave meeting" }],
          isError := none }) ∧
      (leaveMeetingRespond (BackendResult.rejected e) args =
        { content := [{ type := "text", text := "Failed to leave meeting" }],
          isError := some true }) := by
  intro args e
  exact ⟨rfl, rfl⟩

/-- Counterexample to claim C5: the `updateCalendar` handler does not
forward its validated arguments unchanged — with `platform` omitted
(`none`), the backend request carries `platform = "Microsoft"`. -/
theorem claim_C5_counterexample_update_calendar_platform :
    ({ uuid := "cal-1" } : UpdateCalendarArgs).platform = none ∧
    (updateCalendarRequest { uuid := "cal-1" }).platform =
      Platform.Microsoft := by
  exact ⟨rfl, rfl⟩

/-- Claim C5 (amended): besides `joinMeeting`'s speechToText
conditional, handlers contain result-rendering ternaries (`leaveMeeting`,
`deleteCalendar`) and platform ternaries (`createCalendar`,
`updateCalendar`).  For every backend-calling tool other than
`joinMeeting` and `updateCalendar` the validated argument values are
forwarded to the backend unchanged — `createCalendar`'s platform ternary
is the identity on its validated enum domain — while `updateCalendar`
forwards `platform` value-dependently: `"Google"` stays `"Google"` and
every other case, including an omitted platform, becomes `"Microsoft"`. -/
theorem claim_C5_amended_forwarding :
    (∀ s, leaveMeetingRequest s = s) ∧
    (∀ s, getMeetingDataRequest s = s) ∧
    (∀ s, deleteDataRequest s = s) ∧
    (∀ a : CreateCalendarArgs, createCalendarRequest a = a) ∧
    (∀ s, getCalendarRequest s = s) ∧
    (∀ s, deleteCalendarRequest s = s) ∧
    (∀ a : BotsWithMetadataArgs, botsWithMetadataRequest a = a) ∧
    (∀ s, listEventsRequest s = s) ∧
    (∀ a : ScheduleRecordEventArgs,
      scheduleRecordEventRequest a =
        { eventUuid := a.eventUuid, botName := a.botName,
          extra := a.extra }) ∧
    (∀ s, unscheduleRecordEventRequest s = s) ∧
    (∀ a : UpdateCalendarArgs,
      updateCalendarRequest a =
        { uuid := a.uuid,
          oauthClientId := a.oauthClientId,
          oauthClientSecret := a.oauthClientSecret,
          oauthRefreshToken := a.oauthRefreshToken,
          platform := if a.platform = some Platform.Google then
            Platform.Google else Platform.Microsoft,
          rawCalendarId := a.rawCalendarId }) := by
  refine ⟨fun s => rfl, fun s => rfl, fun s => rfl, ?_, fun s => rfl,
    fun s => rfl, fun a => rfl, fun s => rfl, fun a => rfl, fun s => rfl,
    fun a => rfl⟩
  intro a
  rcases a with ⟨cid, sec, tok, p, raw⟩
  cases p <;> rfl

/-- Claim C6: a `createCalendar` call whose `platform` field is any
string outside `Google`/`Microsoft` is rejected at schema validation
with an error envelope, and the handler (hence the backend client's
`createCalendar` call) is never invoked. -/
theorem claim_C6_create_calendar_enum_violation_rejected :
    ∀ (args : List (String × JValue)) (s : String) (b : BackendResult),
      lookupArg args "platform" = some (JValue.str s) →
      s ∉ ["Google", "Microsoft"] →
      (dispatch "createCalendar" args b).result.isError = some true ∧
      (dispatch "createCalendar" args b).handlerInvoked = false := by
  intro args s b hlook hs
  have hplat : fieldOk args
      { name := "platform", type := FieldType.enum ["Google", "Microsoft"],
        required := true } = false := by
    unfold fieldOk
    rw [hlook]
    simpa [checksType] using hs
  have hval : validateArgs createCalendarSchema args = false := by
    unfold validateArgs createCalendarSchema
    simp [hplat]
  have hfind : findTool registry "createCalendar" = some createCalendarTool := rfl
  unfold dispatch
  rw [hfind]
  simp [createCalendarTool, hval, errorResult]

/-- Witness for C6: `createCalendar` with `platform = "Yahoo"`. -/
theorem claim_C6_witness_platform_yahoo :
    (dispatch "createCalendar" createCalendarBadPlatformArgs
      (BackendResult.resolved JValue.null)).result.isError = some true ∧
    (dispatch "createCalendar" createCalendarBadPlatformArgs
      (BackendResult.resolved JValue.null)).handlerInvoked = false := by
  have h := claim_C6_create_calendar_enum_violation_rejected
    createCalendarBadPlatformArgs "Yahoo"
    (BackendResult.resolved JValue.null) rfl (by decide)
  exact h

/-- Claim C7: for every registered tool and every argument bag missing
one of that tool's required fields, the invocation returns an error
envelope (`isError = true`) and the handler — hence the backend client —
is never invoked. -/
theorem claim_C7_missing_required_field_rejected :
    ∀ t ∈ registry, ∀ f ∈ t.schema, f.required = true →
    ∀ (args : List (String × JValue)) (b : BackendResult),
      lookupArg args f.name = none →
      (dispatch t.name args b).result.isError = some true ∧
      (dispatch t.name args b).handlerInvoked = false := by
  intro t ht f hf hreq args b hmiss
  have hfo : fieldOk args f = false := by
    unfold fieldOk
    rw [hmiss, hreq]
    rfl
  have hval : validateArgs t.schema args = false := by
    unfold validateArgs
    rw [Bool.eq_false_iff]
    intro hall
    rw [List.all_eq_true] at hall
    have := hall f hf
    rw [hfo] at this
    exact Bool.false_ne_true this
  have hfind : findTool registry t.name = some t := by
    simp only [registry, List.mem_cons, List.not_mem_nil, or_false] at ht
    rcases ht with rfl | rfl | rfl | rfl | rfl | rfl | rfl | rfl | rfl | rfl
      | rfl | rfl | rfl | rfl | rfl <;> rfl
  unfold dispatch
  rw [hfind]
  simp [hval, errorResult]

/-- Witness for C7: `joinMeeting` invoked without its required
`meetingUrl` field. -/
theorem claim_C7_witness_join_meeting_missing_url :
    (dispatch "joinMeeting" joinMeetingMissingUrlArgs
      (BackendResult.resolved JValue.null)).result.isError = some true ∧
    (dispatch "joinMeeting" joinMeetingMissingUrlArgs
      (BackendResult.resolved JValue.null)).handlerInvoked = false := by
  have h := claim_C7_missing_required_field_rejected
    joinMeetingTool (by simp [registry])
    { name := "meetingUrl", type := FieldType.string, required := true }
    (by simp [joinMeetingTool, joinMeetingSchema]) rfl
    joinMeetingMissingUrlArgs (BackendResult.resolved JValue.null) rfl
  exact h

/-- Claim C8: the spec's `joinMeeting` scenario — arguments
`meetingUrl = "https://meet.example/abc"`, `botName = "Notetaker"`,
`reserved = false` pass validation, the handler runs, and with the
backend resolving `"bot-123"` the returned envelope is exactly one text
block `"Successfully joined meeting with bot ID: bot-123"` with no
`isError` flag. -/
theorem claim_C8_join_meeting_success_scenario :
    dispatch "joinMeeting" joinMeetingScenarioArgs
      (BackendResult.resolved (JValue.str "bot-123")) =
      { result :=
          { content :=
              [{ type := "text",
                 text := "Successfully joined meeting with bot ID: bot-123" }],
            isError := none },
        handlerInvoked := true } := by
  rfl

/-- Claim C9: the `updateCalendar` handler forwards
`platform = "Microsoft"` whenever the optional platform argument is
anything other than exactly `"Google"`; in particular an omitted
(`none`) platform is forwarded as `"Microsoft"`. -/
theorem claim_C9_update_calendar_platform_defaults_microsoft :
    ∀ a : UpdateCalendarArgs,
      ((updateCalendarRequest a).platform =
        if a.platform = some Platform.Google then Platform.Google
        else Platform.Microsoft) ∧
      (a.platform = none →
        (updateCalendarRequest a).platform = Platform.Microsoft) := by
  intro a
  refine ⟨rfl, fun h => ?_⟩
  simp [updateCalendarRequest, h]

/-- Witness for C9: `updateCalendar` with the platform argument
omitted. -/
theorem claim_C9_witness_omitted_platform :
    ({ uuid := "cal-2" } : UpdateCalendarArgs).platform = none ∧
    (updateCalendarRequest { uuid := "cal-2" }).platform =
      Platform.Microsoft := by
  exact ⟨rfl,
    (claim_C9_update_calendar_platform_defaults_microsoft
      { uuid := "cal-2" }).2 rfl⟩

/-- Claim C10: the `joinMeeting` handler never forwards the boolean
`speechToText` argument itself: a truthy value becomes the object
`\x7b provider: "Default" \x7d` and anything else becomes `undefined`,
so passing `false` is indistinguishable at the backend boundary from
omitting the field. -/
theorem claim_C10_speech_to_text_object_or_absent :
    ∀ a : JoinMeetingArgs,
      ((joinMeetingRequest a).speechToText =
        if a.speechToText = some true then some { provider := "Default" }
        else none) ∧
      (joinMeetingRequest { a with speechToText := some false } =
        joinMeetingRequest { a with speechToText := none }) := by
  intro a
  constructor
  · rcases a with ⟨url, name, hook, mode, st, res⟩
    rcases st with _ | b
    · rfl
    · cases b <;> rfl
  · rfl
